import Mathlib

/-!
# Verification of the azuredisk attach/detach reconciliation engine

Shallow embedding of the AzVolumeAttachment attach/detach controller
(`pkg/.../azvolumeattachment.go`, `controller` package) and of the
`az-analyze azva` CLI listing command (`cmd/az-analyze/cmd/azva.go`),
together with theorems settling the spec claims about them.

Go maps are embedded as association lists, Go `nil`-able pointers as
`Option`, and gRPC status errors as an explicit error structure.  The
asynchronous parts of the controller are embedded as the synchronous
trigger step plus an explicit trace of cloud (provisioner) calls the
invocation emits.
-/

namespace AzDisk

/-! ## Go map / slice helpers -/

/-- A Go `map[string]string`, embedded as an association list. -/
abbrev StrMap := List (String × String)

/-- Map lookup (`m[k]` with presence bit). -/
def mapGet (m : StrMap) (k : String) : Option String :=
  (m.find? (fun p => p.1 = k)).map (fun p => p.2)

/-- Map store (`m[k] = v`): replaces the binding if the key is present,
else appends it.  (Association lists built by this embedding never hold a
key twice, matching Go map semantics.) -/
def mapSet (m : StrMap) (k v : String) : StrMap :=
  match m with
  | [] => [(k, v)]
  | p :: tl => if p.1 = k then (k, v) :: tl else p :: mapSet tl k v

/-! ## Constants

String constants from the `azureutils` package (the package itself is not
part of the embedded sources; the values are opaque identifiers and only
their distinctness matters). -/

def AzVolumeAttachmentFinalizer : String := "disk.csi.azure.com/azvolumeattachment-finalizer"

def NodeNameLabel : String := "disk.csi.azure.com/node-name"

def VolumeNameLabel : String := "disk.csi.azure.com/volume-name"

def RoleLabel : String := "disk.csi.azure.com/requested-role"

def volumeAttachmentExistsAnnKey : String := "disk.csi.azure.com/volume-attachment-exists"

def volumeDetachRequestAnnKey : String := "disk.csi.azure.com/volume-detach-request"

def DriverName : String := "disk.csi.azure.com"

def DanglingAttachErrorCode : String := "DanglingAttachVolume"

/-! ## Data model (`v1alpha1` API types) -/

/-- `v1alpha1.Role`. -/
inductive Role where
  | Primary
  | Replica
deriving DecidableEq, Repr

/-- `v1alpha1.AzVolumeAttachmentAttachmentState`. -/
inductive AttachState where
  | AttachmentPending
  | Attaching
  | Attached
  | AttachmentFailed
  | Detaching
  | Detached
  | DetachmentFailed
deriving DecidableEq, Repr

/-- The Go `string(state)` conversion (states are string-typed constants). -/
def stateString : AttachState → String
  | .AttachmentPending => "Pending"
  | .Attaching => "Attaching"
  | .Attached => "Attached"
  | .AttachmentFailed => "AttachmentFailed"
  | .Detaching => "Detaching"
  | .Detached => "Detached"
  | .DetachmentFailed => "DetachmentFailed"

def roleString : Role → String
  | .Primary => "Primary"
  | .Replica => "Replica"

/-- `v1alpha1.AzVolumeAttachmentStatusDetail`. -/
structure StatusDetail where
  role : Role
  publishContext : StrMap
deriving DecidableEq, Repr

/-- `v1alpha1.AzError` (Go fields default to the empty string). -/
structure AzError where
  errorCode : String
  errorMessage : String
  currentNode : String := ""
  devicePath : String := ""
deriving DecidableEq, Repr

/-- `v1alpha1.AzVolumeAttachmentStatus`. -/
structure AttachmentStatus where
  detail : Option StatusDetail
  error : Option AzError
  state : AttachState
deriving DecidableEq, Repr

/-- `v1alpha1.AzVolumeAttachmentSpec`. -/
structure AttachmentSpec where
  underlyingVolume : String
  volumeID : String
  nodeName : String
  requestedRole : Role
  volumeContext : StrMap
deriving DecidableEq, Repr

/-- `metav1.ObjectMeta` (the fields the controller reads/writes).
A deletion timestamp is only tested for presence, so it is a `Bool`. -/
structure ObjectMeta where
  name : String
  nameSpace : String := ""
  labels : StrMap
  annotations : StrMap
  finalizers : List String
  deletionTimestampSet : Bool
deriving DecidableEq, Repr

/-- `v1alpha1.AzVolumeAttachment`. -/
structure AzVolumeAttachment where
  meta : ObjectMeta
  spec : AttachmentSpec
  status : AttachmentStatus
deriving DecidableEq, Repr

/-! ## gRPC status errors -/

/-- The gRPC status codes the controller uses. -/
inductive GrpcCode where
  | ok
  | unknown
  | notFound
  | failedPrecondition
  | internal
deriving DecidableEq, Repr

/-- A `status.Error` value: gRPC code plus message. -/
structure GrpcError where
  code : GrpcCode
  message : String
deriving DecidableEq, Repr

/-! ## Controller helpers (`controller` package) -/

/-- `containsString(s, list)`: slice membership. -/
def containsString (s : String) (l : List String) : Bool :=
  l.contains s

/-- `finalizerExists(finalizers, finalizerName)`: slice membership. -/
def finalizerExists (finalizers : List String) (f : String) : Bool :=
  finalizers.contains f

/-- Modelled from the spec: `labelExists(labels, label)` (helper of the
controller package, not among the embedded sources) tests whether the
label key is present; its call sites pass only the key, so it cannot
depend on any expected value. -/
def labelExists (labels : StrMap) (label : String) : Bool :=
  (mapGet labels label).isSome

/-- `metav1.HasAnnotation(meta, key)`: key presence. -/
def hasAnnKey (meta : ObjectMeta) (key : String) : Bool :=
  (mapGet meta.annotations key).isSome

/-- Modelled from the spec: `deletionRequested` (helper of the controller
package, not among the embedded sources) — "a deletion timestamp
signaling detachment intent": the deletion timestamp is set. -/
def deletionRequested (meta : ObjectMeta) : Bool :=
  meta.deletionTimestampSet

/-- Modelled from the spec: `formatUpdateStateError` (helper of the
controller package, not among the embedded sources) — a message
"identifying current state, requested state, and the allowed set". -/
def formatUpdateStateError (objectType current requested : String)
    (expected : List String) : String :=
  "invalid state transition of " ++ objectType ++ " from " ++ current ++
    " to " ++ requested ++ " (allowed targets: " ++
    String.intercalate ", " expected ++ ")"

/-! ## State machine (`allowedTargetAttachmentStates`, `updateState`) -/

/-- `allowedTargetAttachmentStates`: the Go map literal.  `Detached` is
not a key of the map, so looking it up yields the zero value: the empty
slice. -/
def allowedTargetAttachmentStates : AttachState → List AttachState
  | .AttachmentPending => [.Attaching, .Detaching]
  | .Attaching => [.Attached, .AttachmentFailed]
  | .Detaching => [.Detached, .DetachmentFailed]
  | .Attached => [.Detaching]
  | .AttachmentFailed => [.Attaching, .Detaching]
  | .DetachmentFailed => [.Detaching]
  | .Detached => []

/-- `(r *ReconcileAttachDetach) updateState`: validates the requested
transition against `allowedTargetAttachmentStates`; on success mutates
`Status.State`, on failure returns a `FailedPrecondition` error and
leaves the object untouched.  (The Go nil-object guard has no
counterpart: records are non-nullable here.) -/
def updateState (a : AzVolumeAttachment) (state : AttachState) :
    AzVolumeAttachment × Option GrpcError :=
  let expectedStates := allowedTargetAttachmentStates a.status.state
  if containsString (stateString state) (expectedStates.map stateString) then
    ({ a with status := { a.status with state := state } }, none)
  else
    (a, some { code := .failedPrecondition,
               message := formatUpdateStateError "azVolume"
                 (stateString a.status.state) (stateString state)
                 (expectedStates.map stateString) })

/-- A concrete record used to instantiate hypotheses of proved theorems. -/
def rec0 : AzVolumeAttachment :=
  { meta := { name := "disk0-node0-attachment", labels := [], annotations := [],
              finalizers := [], deletionTimestampSet := false },
    spec := { underlyingVolume := "pv0", volumeID := "volid0", nodeName := "node0",
              requestedRole := .Primary, volumeContext := [] },
    status := { detail := none, error := none, state := .AttachmentPending } }


/-! ## Record mutation helpers (`controller` package) -/

/-- The early-return test of `initializeMeta` (lines 362-367): the
required finalizer and the three identity labels are all present. -/
def requiredMetaExists (a : AzVolumeAttachment) : Bool :=
  finalizerExists a.meta.finalizers AzVolumeAttachmentFinalizer &&
  labelExists a.meta.labels NodeNameLabel &&
  labelExists a.meta.labels VolumeNameLabel &&
  labelExists a.meta.labels RoleLabel

/-- `(r *ReconcileAttachDetach) initializeMeta` (lines 356-387): if the
required metadata already exists the record is returned unchanged; else
the finalizer is appended (if missing) and the three identity labels are
stored.  (The Go nil-slice/nil-map initializations are no-ops under the
list embedding.) -/
def initializeMeta (a : AzVolumeAttachment) : AzVolumeAttachment :=
  if requiredMetaExists a then a
  else
    let fins :=
      if finalizerExists a.meta.finalizers AzVolumeAttachmentFinalizer then a.meta.finalizers
      else a.meta.finalizers ++ [AzVolumeAttachmentFinalizer]
    let labels :=
      mapSet (mapSet (mapSet a.meta.labels NodeNameLabel a.spec.nodeName)
        VolumeNameLabel a.spec.underlyingVolume) RoleLabel (roleString a.spec.requestedRole)
    { a with meta := { a.meta with finalizers := fins, labels := labels } }

/-- `(r *ReconcileAttachDetach) deleteFinalizer` (lines 389-407): rebuilds
the finalizer slice skipping the driver finalizer. -/
def deleteFinalizer (a : AzVolumeAttachment) : AzVolumeAttachment :=
  { a with meta := { a.meta with
      finalizers := a.meta.finalizers.filter (fun f => f ≠ AzVolumeAttachmentFinalizer) } }

/-- `(r *ReconcileAttachDetach) updateRole` (lines 467-483): stores the
role label; if `Status.Detail` is nil returns there, else also sets
`Status.Detail.Role`. -/
def updateRole (a : AzVolumeAttachment) (role : Role) : AzVolumeAttachment :=
  let a1 := { a with meta :=
    { a.meta with labels := mapSet a.meta.labels RoleLabel (roleString role) } }
  match a1.status.detail with
  | none => a1
  | some d => { a1 with status := { a1.status with detail := some ({ d with role := role }) } }

/-- `(r *ReconcileAttachDetach) updateStatusDetail` (lines 485-497):
allocates `Status.Detail` when nil, then overwrites both of its fields:
`Role` from `Spec.RequestedRole` and `PublishContext` from the provisioner
response. -/
def updateStatusDetail (a : AzVolumeAttachment) (status : StrMap) : AzVolumeAttachment :=
  let d : StatusDetail := { role := a.spec.requestedRole, publishContext := status }
  { a with status := { a.status with detail := some d } }

/-! ## Provisioner errors and `updateError` -/

/-- An error returned by the `AttachmentProvisioner`: an opaque error
carrying a gRPC status code, or the distinguished
`volerr.DanglingAttachError` with the node currently holding the attach
and its device path. -/
inductive ProvisionerError where
  | grpcStatus (code : GrpcCode) (message : String)
  | danglingAttach (message : String) (currentNode : String) (devicePath : String)
deriving DecidableEq, Repr

/-- `status.Code(err)`.  `DanglingAttachError` is not a gRPC status error,
so it yields `Unknown`. -/
def statusCodeOf : ProvisionerError → GrpcCode
  | .grpcStatus c _ => c
  | .danglingAttach _ _ _ => .unknown

/-- `err.Error()`. -/
def errorMessageOf : ProvisionerError → String
  | .grpcStatus _ m => m
  | .danglingAttach m _ _ => m

/-- Modelled from the spec: `util.GetStringValueForErrorCode` (helper
package not among the embedded sources) renders a gRPC status code as a
string. -/
def getStringValueForErrorCode : GrpcCode → String
  | .ok => "OK"
  | .unknown => "Unknown"
  | .notFound => "NotFound"
  | .failedPrecondition => "FailedPrecondition"
  | .internal => "Internal"

/-- `(r *ReconcileAttachDetach) updateError` (lines 499-519): records the
provisioner error into `Status.Error`; the dangling-attach variant
overrides the code and populates `CurrentNode`/`DevicePath`. -/
def updateError (a : AzVolumeAttachment) (err : ProvisionerError) : AzVolumeAttachment :=
  let base : AzError := { errorCode := getStringValueForErrorCode (statusCodeOf err),
                          errorMessage := errorMessageOf err }
  let e := match err with
    | .danglingAttach _ cn dp =>
      { base with errorCode := DanglingAttachErrorCode, currentNode := cn, devicePath := dp }
    | _ => base
  { a with status := { a.status with error := some e } }

/-! ## Reconcile branch structure -/

/-- Modelled from the spec: `isOperationInProcess` (helper of the
controller package, not among the embedded sources) — "a cloud operation
is already in flight for this record": the record is mid-transition. -/
def isOperationInProcess (a : AzVolumeAttachment) : Bool :=
  a.status.state == .Attaching || a.status.state == .Detaching

/-- The detach-eligible states tested at line 186. -/
def detachEligibleState (s : AttachState) : Bool :=
  s == .AttachmentPending || s == .Attached || s == .AttachmentFailed || s == .DetachmentFailed

/-- The attach-eligible states tested at line 193. -/
def attachEligibleState (s : AttachState) : Bool :=
  s == .AttachmentPending || s == .AttachmentFailed

/-- Which trigger one `Reconcile` invocation selects. -/
inductive ReconcileIntent where
  | skip
  | detach
  | attach
  | promoteRecord
  | noop
deriving DecidableEq, Repr

/-- The branch structure of `Reconcile` (lines 180-204) for a fetched
record: the in-flight skip, then the deletion / attachment / promotion
else-if chain.  Note that when deletion is requested but the state is not
detach-eligible, the whole chain falls through to a no-op. -/
def reconcileIntent (a : AzVolumeAttachment) : ReconcileIntent :=
  if isOperationInProcess a then .skip
  else if deletionRequested a.meta then
    (if detachEligibleState a.status.state then .detach else .noop)
  else
    match a.status.detail with
    | none => if attachEligibleState a.status.state then .attach else .noop
    | some d => if a.spec.requestedRole != d.role then .promoteRecord else .noop

/-- The role-mismatch test of the claim's branch (3): meaningful only when
`Status.Detail` exists. -/
def roleMismatch (a : AzVolumeAttachment) : Bool :=
  match a.status.detail with
  | some d => a.spec.requestedRole != d.role
  | none => false

/-- The branch order as the C2 claim words it: the three intent conditions
form a flat priority list, and the first whose full conjunction holds is
taken. -/
def reconcileIntentClaimed (a : AzVolumeAttachment) : ReconcileIntent :=
  if isOperationInProcess a then .skip
  else if deletionRequested a.meta && detachEligibleState a.status.state then .detach
  else if a.status.detail.isNone && attachEligibleState a.status.state then .attach
  else if roleMismatch a then .promoteRecord
  else .noop

/-! ## Per-record operation lock and triggers -/

/-- The per-record operation lock (`stateLock *sync.Map`): the set of
record names owning an in-flight transition. -/
abbrev StateLock := List String

/-- `stateLock.LoadOrStore(name, nil)`: atomic check-and-set.  Returns the
Go `loaded` flag (`true` when the key was already present, i.e. the
caller did NOT obtain ownership) and the updated map. -/
def lockLoadOrStore (l : StateLock) (name : String) : Bool × StateLock :=
  if l.contains name then (true, l) else (false, name :: l)

/-- `stateLock.Delete(name)`: unconditional removal. -/
def lockDelete (l : StateLock) (name : String) : StateLock :=
  l.filter (fun n => n ≠ name)

/-- A call into the `AttachmentProvisioner`. -/
inductive CloudCall where
  | publish (volumeID nodeID : String) (volumeContext : StrMap)
  | unpublish (volumeID nodeID : String)
deriving DecidableEq, Repr

/-- The observable result of a trigger invocation: the
`getOperationRequeueError` retry-later error when the per-record lock is
held, a propagated update error, or success with the synchronously stored
record. -/
inductive TriggerResult where
  | requeue
  | err (e : GrpcError)
  | ok (stored : AzVolumeAttachment)
deriving DecidableEq, Repr

/-- `(r *ReconcileAttachDetach) triggerAttach` (lines 207-271): acquire
the lock (requeue error when already held, map untouched); apply
`initializeMeta` then `updateState(Attaching)` through the retrying
read-modify-write; the deferred `Delete` releases the lock when the call
returns.  Returns the final lock map, the result, and the provisioner
calls this invocation issues (the asynchronous unit of work calls
`PublishVolume` once; its completion update is a separate step). -/
def triggerAttach (lock : StateLock) (a : AzVolumeAttachment) :
    StateLock × TriggerResult × List CloudCall :=
  match lockLoadOrStore lock a.meta.name with
  | (true, l1) => (l1, .requeue, [])
  | (false, l1) =>
    match updateState (initializeMeta a) .Attaching with
    | (_, some e) => (lockDelete l1 a.meta.name, .err e, [])
    | (a2, none) =>
      (lockDelete l1 a.meta.name, .ok a2,
       [.publish a.spec.volumeID a.spec.nodeName a.spec.volumeContext])

/-- `storagev1.VolumeAttachment`: the fields the controller reads. -/
structure VolumeAttachmentObj where
  name : String
  attacher : String
  sourcePVName : Option String
  nodeName : String
  attached : Bool
  deletionTimestampSet : Bool
deriving DecidableEq, Repr

/-- The `detachmentRequested` computation of `triggerDetach` (lines
278-289).  `vaLookup` embeds `r.client.Get` on low-level
VolumeAttachments (`none` = IsNotFound; the transient-error path, which
aborts the trigger, is outside the embedding). -/
def detachmentRequestedCalc (vaLookup : String → Option VolumeAttachmentObj)
    (a : AzVolumeAttachment) : Bool :=
  let base :=
    match mapGet a.meta.annotations volumeAttachmentExistsAnnKey with
    | none => true
    | some vaName =>
      match vaLookup vaName with
      | none => true
      | some va => va.deletionTimestampSet
  base || hasAnnKey a.meta volumeDetachRequestAnnKey

/-- The observable result of `triggerDetach`: requeue, propagated error,
a cloud detach (state set to `Detaching`, async unpublish launched), or
the direct finalizer-clear path with no cloud call. -/
inductive DetachResult where
  | requeue
  | err (e : GrpcError)
  | cloudDetach (stored : AzVolumeAttachment)
  | clearFinalizer (stored : AzVolumeAttachment)
deriving DecidableEq, Repr

/-- `(r *ReconcileAttachDetach) triggerDetach` (lines 273-344): when
detachment is confirmed, acquire the lock, transition to `Detaching` and
launch the asynchronous `UnpublishVolume` unit; otherwise apply
`deleteFinalizer` through the read-modify-write with no cloud call. -/
def triggerDetach (vaLookup : String → Option VolumeAttachmentObj)
    (lock : StateLock) (a : AzVolumeAttachment) :
    StateLock × DetachResult × List CloudCall :=
  if detachmentRequestedCalc vaLookup a then
    match lockLoadOrStore lock a.meta.name with
    | (true, l1) => (l1, .requeue, [])
    | (false, l1) =>
      match updateState a .Detaching with
      | (_, some e) => (lockDelete l1 a.meta.name, .err e, [])
      | (a2, none) =>
        (lockDelete l1 a.meta.name, .cloudDetach a2,
         [.unpublish a.spec.volumeID a.spec.nodeName])
  else
    (lock, .clearFinalizer (deleteFinalizer a), [])

/-- `(r *ReconcileAttachDetach) promote` (lines 346-354): a synchronous
read-modify-write applying `updateRole(azv, v1alpha1.PrimaryRole)`; the
body contains no `attachmentProvisioner` call, so its cloud-call trace is
empty. -/
def promote (a : AzVolumeAttachment) : AzVolumeAttachment × List CloudCall :=
  (updateRole a .Primary, [])

/-! ## Recovery engine (`syncAll`) -/

/-- `pv.Spec.CSI`: driver name and cloud volume handle. -/
structure CSISpec where
  driver : String
  volumeHandle : String
deriving DecidableEq, Repr

/-- `v1.PersistentVolume`: the field `syncAll` reads. -/
structure PersistentVolumeObj where
  csi : Option CSISpec
deriving DecidableEq, Repr

/-- Splits a character list at every slash. -/
def splitSlashes : List Char → List (List Char)
  | [] => [[]]
  | c :: rest =>
    let r := splitSlashes rest
    if c = '/' then [] :: r
    else
      match r with
      | [] => [[c]]
      | hd :: tl => (c :: hd) :: tl

/-- Modelled from the spec: `azureutils.GetDiskNameFromAzureManagedDiskURI`
(not among the embedded sources) extracts the disk name — the final URI
component, which must follow a `disks` component — from a managed-disk
URI, and fails on a malformed handle. -/
def getDiskNameFromAzureManagedDiskURI (uri : String) : Option String :=
  match (splitSlashes uri.toList).reverse with
  | last :: prev :: _ =>
    if prev = "disks".toList ∧ last ≠ [] then some (String.mk last) else none
  | _ => none

/-- Modelled from the spec: `azureutils.GetAzVolumeAttachmentName` — the
"deterministic name derived from (diskName, nodeName)", reproducible from
the inputs alone. -/
def getAzVolumeAttachmentName (diskName nodeName : String) : String :=
  diskName ++ "-" ++ nodeName ++ "-attachment"

/-- Modelled from the spec: `azureutils.GetAzVolumeAttachmentState` — the
record state "derived from the low-level object's attach status". -/
def getAzVolumeAttachmentState (attached : Bool) : AttachState :=
  if attached then .Attached else .AttachmentPending

/-- The AzVolumeAttachment store of the controller namespace, indexed by
record name. -/
abbrev RecordStore := List AzVolumeAttachment

/-- `GetAzVolumeAttachment` by name (`none` = IsNotFound). -/
def storeGet (store : RecordStore) (name : String) : Option AzVolumeAttachment :=
  store.find? (fun r => r.meta.name = name)

/-- `r.update`: replace the record with the given name. -/
def storeUpdate (store : RecordStore) (r : AzVolumeAttachment) : RecordStore :=
  store.map (fun x => if x.meta.name = r.meta.name then r else x)

/-- The AzVolumeAttachment that `syncAll` synthesizes for an unmatched
binding (lines 631-655): Primary requested role, state derived from the
attach status, and — exactly when that state is `Attached` — a
`Status.Detail` with Primary role. -/
def synthesizedRecord (azName volumeName volumeHandle nodeName : String)
    (attached : Bool) : AzVolumeAttachment :=
  let st := getAzVolumeAttachmentState attached
  { meta := { name := azName,
              labels := [(NodeNameLabel, nodeName), (VolumeNameLabel, volumeName)],
              annotations := [], finalizers := [AzVolumeAttachmentFinalizer],
              deletionTimestampSet := false },
    spec := { underlyingVolume := volumeName, volumeID := volumeHandle,
              nodeName := nodeName, requestedRole := .Primary, volumeContext := [] },
    status := { detail := if st = .Attached
                  then some ({ role := .Primary, publishContext := [] } : StatusDetail) else none,
                error := none, state := st } }

/-- The accumulator threaded by the `syncAll` loop: the record store, the
`syncedVolumeAttachments` set and the `volumesToSync` set. -/
structure SyncAcc where
  store : RecordStore
  synced : List String
  volumesToSync : List String
deriving DecidableEq, Repr

/-- One iteration of the `syncAll` recovery loop (lines 587-667) for a
single low-level binding.  `pvLookup` embeds the PV `Get` (`none` = an
error: the pass aborts, returning `none`, and is retried by `Recover`). -/
def syncOne (pvLookup : String → Option PersistentVolumeObj)
    (acc : SyncAcc) (va : VolumeAttachmentObj) : Option SyncAcc :=
  if acc.synced.contains va.name then some acc
  else if va.attacher = DriverName then
    match va.sourcePVName with
    | none => some acc
    | some volumeName =>
      match pvLookup volumeName with
      | none => none
      | some pv =>
        match pv.csi with
        | none => some acc
        | some csi =>
          if csi.driver = DriverName then
            let vols1 := if acc.volumesToSync.contains csi.volumeHandle
              then acc.volumesToSync else csi.volumeHandle :: acc.volumesToSync
            match getDiskNameFromAzureManagedDiskURI csi.volumeHandle with
            | none =>
              some { acc with volumesToSync := vols1.filter (fun v => v ≠ csi.volumeHandle) }
            | some diskName =>
              let azName := getAzVolumeAttachmentName diskName va.nodeName
              match storeGet acc.store azName with
              | some existing =>
                some { store := storeUpdate acc.store (initializeMeta existing),
                       synced := va.name :: acc.synced, volumesToSync := vols1 }
              | none =>
                some { store := acc.store ++
                         [synthesizedRecord azName volumeName csi.volumeHandle
                           va.nodeName va.attached],
                       synced := va.name :: acc.synced, volumesToSync := vols1 }
          else some acc
  else some acc

/-- One full sync pass over the listed low-level bindings (the loop of
`syncAll`, started by `Recover` with empty sets). -/
def syncAllPass (pvLookup : String → Option PersistentVolumeObj)
    (vas : List VolumeAttachmentObj) (store : RecordStore) : Option SyncAcc :=
  vas.foldlM (syncOne pvLookup) { store := store, synced := [], volumesToSync := [] }


/-! ## CLI: `az-analyze azva` (`cmd/az-analyze/cmd/azva.go`) -/

/-- `consts.PvcNameKey` (azureconstants, value opaque). -/
def PvcNameKey : String := "csi.storage.k8s.io/pvc/name"

/-- `consts.WellKnownTopologyKey` (azureconstants, value opaque). -/
def WellKnownTopologyKey : String := "topology.kubernetes.io/zone"

/-- `v1.Pod`: name, namespace and the PVC claim names among
`Spec.Volumes` (the volumes with a `PersistentVolumeClaim` source). -/
structure PodObj where
  name : String
  nameSpace : String
  pvcClaimNames : List String
deriving DecidableEq, Repr

/-- `v1.Node`: name and labels. -/
structure NodeObj where
  name : String
  labels : StrMap
deriving DecidableEq, Repr

/-- `AzvaResource` rows (the `Age` column derives from wall-clock time
and is outside the embedding). -/
structure AzvaResource where
  resourceType : String
  nameSpace : String
  name : String
  requestRole : Role
  role : Role
  state : AttachState
deriving DecidableEq, Repr

/-- `AzvaResourceAll` rows (again without the wall-clock `Age`). -/
structure AzvaResourceAll where
  podName : String
  nodeName : String
  zoneName : String
  nameSpace : String
  name : String
  requestRole : Role
  role : Role
  state : AttachState
deriving DecidableEq, Repr

/-- The pod names that the `pvcClaimNameSet` map associates to a claim
name (built by looping pods and their claim volumes; a pod listing the
same claim twice is collapsed to one entry). -/
def pvcClaimNamePods (pods : List PodObj) (claim : String) : List String :=
  (pods.filter (fun p => p.pvcClaimNames.contains claim)).map (fun p => p.name)

/-- `GetAzVolumeAttachementsByNode` (lines 237-260).  Reads
`Status.Detail.Role` unconditionally: on a matching record with nil
`Detail` the Go code dereferences a nil pointer and panics, embedded as
`Except.error`. -/
def GetAzVolumeAttachementsByNode (atts : List AzVolumeAttachment) (nodeName : String) :
    Except String (List AzvaResource) :=
  atts.foldlM (fun acc a =>
    if a.spec.nodeName = nodeName then
      match a.status.detail with
      | none => .error "nil pointer dereference: Status.Detail"
      | some d => .ok (acc ++ [{ resourceType := a.spec.nodeName,
                                 nameSpace := a.meta.nameSpace, name := a.meta.name,
                                 requestRole := a.spec.requestedRole, role := d.role,
                                 state := a.status.state }])
    else .ok acc) []

/-- `GetAzVolumeAttachementsByPod` (lines 187-234): resolves the pod (a
`Get` error panics), builds the claim set from its volumes, then filters
the attachments by the `PvcNameKey` entry of their volume context --
reading `Status.Detail.Role` unconditionally on every match. -/
def GetAzVolumeAttachementsByPod (pods : List PodObj) (atts : List AzVolumeAttachment)
    (podName nameSpace : String) : Except String (List AzvaResource) :=
  let ns := if nameSpace = "" then "default" else nameSpace
  match pods.find? (fun p => p.name = podName && p.nameSpace = ns) with
  | none => .error "pod get failed"
  | some pod =>
    atts.foldlM (fun acc a =>
      let pvcClaimName := (mapGet a.spec.volumeContext PvcNameKey).getD ""
      if pod.pvcClaimNames.contains pvcClaimName then
        match a.status.detail with
        | none => .error "nil pointer dereference: Status.Detail"
        | some d => .ok (acc ++ [{ resourceType := pod.name,
                                   nameSpace := a.meta.nameSpace, name := a.meta.name,
                                   requestRole := a.spec.requestedRole, role := d.role,
                                   state := a.status.state }])
      else .ok acc) []

/-- The `nodeSet` map of `GetAzVolumeAttachementsByZone` (lines 266-278):
node name to topology label, for the nodes in the zone. -/
def zoneNodeSet (nodes : List NodeObj) (zoneName : String) : StrMap :=
  (nodes.filter (fun n => (mapGet n.labels WellKnownTopologyKey).getD "" = zoneName)).map
    (fun n => (n.name, (mapGet n.labels WellKnownTopologyKey).getD ""))

/-- `GetAzVolumeAttachementsByZone` (lines 263-301). -/
def GetAzVolumeAttachementsByZone (nodes : List NodeObj) (atts : List AzVolumeAttachment)
    (zoneName : String) : Except String (List AzvaResource) :=
  let nodeSet := zoneNodeSet nodes zoneName
  atts.foldlM (fun acc a =>
    match mapGet nodeSet a.spec.nodeName with
    | none => .ok acc
    | some zName =>
      match a.status.detail with
      | none => .error "nil pointer dereference: Status.Detail"
      | some d => .ok (acc ++ [{ resourceType := zName,
                                 nameSpace := a.meta.nameSpace, name := a.meta.name,
                                 requestRole := a.spec.requestedRole, role := d.role,
                                 state := a.status.state }])) []

/-- `GetAllAzVolumeAttachements` (lines 126-184): claim set from all pods
of the namespace; for each attachment the node is resolved first (a `Get`
error panics), then matching rows are emitted per referencing pod,
reading `Status.Detail.Role` unconditionally. -/
def GetAllAzVolumeAttachements (pods : List PodObj) (nodes : List NodeObj)
    (atts : List AzVolumeAttachment) (nameSpace : String) :
    Except String (List AzvaResourceAll) :=
  let ns := if nameSpace = "" then "default" else nameSpace
  let podsNs := pods.filter (fun p => p.nameSpace = ns)
  atts.foldlM (fun acc a =>
    let pvcClaimName := (mapGet a.spec.volumeContext PvcNameKey).getD ""
    match nodes.find? (fun n => n.name = a.spec.nodeName) with
    | none => .error "node get failed"
    | some node =>
      let zoneName := (mapGet node.labels WellKnownTopologyKey).getD ""
      let pNames := pvcClaimNamePods podsNs pvcClaimName
      if pNames.isEmpty then .ok acc
      else
        match a.status.detail with
        | none => .error "nil pointer dereference: Status.Detail"
        | some d => .ok (acc ++ pNames.map (fun pName =>
            { podName := pName, nodeName := a.spec.nodeName, zoneName := zoneName,
              nameSpace := a.meta.nameSpace, name := a.meta.name,
              requestRole := a.spec.requestedRole, role := d.role,
              state := a.status.state }))) []

/-- `true` when the Go call panicked (embedded as `Except.error`). -/
def isPanic {α : Type} : Except String α → Bool
  | .error _ => true
  | .ok _ => false

/-- The cluster contents the CLI queries. -/
structure Cluster where
  pods : List PodObj
  nodes : List NodeObj
  azVolumeAttachments : List AzVolumeAttachment
deriving DecidableEq, Repr

/-- The flag set of one `azva` invocation: `none` = the flag was not
passed on the command line (`cmd.Flags().NFlag()` counts passed flags;
`GetString` yields the default `""`). -/
structure AzvaFlags where
  pod : Option String
  node : Option String
  zone : Option String
  nameSpace : Option String
deriving DecidableEq, Repr

/-- A message or table printed by the `azva` command. -/
inductive CliOutput where
  | usageMessage
  | noResults
  | tableAll (rows : List AzvaResourceAll)
  | table (filterName : String) (rows : List AzvaResource)
deriving DecidableEq, Repr

/-- `cmd.Flags().NFlag()` minus the namespace adjustment (lines 46-49). -/
def azvaNumFlag (flags : AzvaFlags) : Nat :=
  let nflag := [flags.pod, flags.node, flags.zone, flags.nameSpace].countP Option.isSome
  if flags.nameSpace.getD "" ≠ "" then nflag - 1 else nflag

/-- The `Run` body of `azvaCmd` (lines 40-92): the multiple-filter usage
check, then the all / pod / node / zone branch chain, each printing its
table or the no-results message.  A branch chain falling fully through
(a filter flag passed with an empty value) prints nothing. -/
def azvaRun (cluster : Cluster) (flags : AzvaFlags) : Except String (List CliOutput) :=
  let pod := flags.pod.getD ""
  let node := flags.node.getD ""
  let zone := flags.zone.getD ""
  let ns := flags.nameSpace.getD ""
  let numFlag := azvaNumFlag flags
  if numFlag > 1 then .ok [.usageMessage]
  else if numFlag = 0 then
    match GetAllAzVolumeAttachements cluster.pods cluster.nodes
        cluster.azVolumeAttachments ns with
    | .error e => .error e
    | .ok resultAll =>
      .ok [if resultAll.length ≠ 0 then .tableAll resultAll else .noResults]
  else if pod ≠ "" then
    match GetAzVolumeAttachementsByPod cluster.pods cluster.azVolumeAttachments pod ns with
    | .error e => .error e
    | .ok result => .ok [if result.length ≠ 0 then .table "POD" result else .noResults]
  else if node ≠ "" then
    match GetAzVolumeAttachementsByNode cluster.azVolumeAttachments node with
    | .error e => .error e
    | .ok result => .ok [if result.length ≠ 0 then .table "NODE" result else .noResults]
  else if zone ≠ "" then
    match GetAzVolumeAttachementsByZone cluster.nodes cluster.azVolumeAttachments zone with
    | .error e => .error e
    | .ok result => .ok [if result.length ≠ 0 then .table "ZONE" result else .noResults]
  else .ok []

/-! ## Concrete instances for counterexamples and witnesses -/

/-- C2 counterexample record: deletion requested, state `Detached` (not
detach-eligible), `Status.Detail` present with a role differing from the
requested one. -/
def recC2 : AzVolumeAttachment :=
  { rec0 with
    meta := { rec0.meta with deletionTimestampSet := true },
    status := { detail := some ({ role := .Replica, publishContext := [] } : StatusDetail),
                error := none, state := .Detached } }

/-- C3 counterexample record: attached as Primary while the spec requests
a demotion to Replica. -/
def recC3 : AzVolumeAttachment :=
  { rec0 with
    spec := { rec0.spec with requestedRole := .Replica },
    status := { detail := some ({ role := .Primary, publishContext := [] } : StatusDetail),
                error := none, state := .Attached } }

/-- C7 counterexample record: finalizer and all three label keys already
present, the role label holding a value other than the requested role. -/
def recC7 : AzVolumeAttachment :=
  { rec0 with
    meta := { rec0.meta with
      finalizers := [AzVolumeAttachmentFinalizer],
      labels := [(NodeNameLabel, "node0"), (VolumeNameLabel, "pv0"),
                 (RoleLabel, "Replica")] } }

/-- C4/C9 witness record: deletion requested, attached, no annotations
(so detachment is immediately eligible). -/
def recC4 : AzVolumeAttachment :=
  { rec0 with
    meta := { rec0.meta with deletionTimestampSet := true },
    status := { detail := some ({ role := .Primary, publishContext := [] } : StatusDetail),
                error := none, state := .Attached } }

/-- A minimal cluster for the C8 witness: one pod, no attachments. -/
def cluster0 : Cluster :=
  { pods := [{ name := "pod1", nameSpace := "default", pvcClaimNames := ["claim1"] }],
    nodes := [], azVolumeAttachments := [] }

/-- C10 witness record: matches `node0` with nil `Status.Detail`, and
carries the claim-name volume context entry. -/
def recC10 : AzVolumeAttachment :=
  { rec0 with spec := { rec0.spec with volumeContext := [(PvcNameKey, "claim1")] } }

/-- C10 witness node: `node0` in zone `z1`. -/
def nodeC10 : NodeObj :=
  { name := "node0", labels := [(WellKnownTopologyKey, "z1")] }

/-- C5 witness binding: attached, of this driver, bound to `pv0`. -/
def va0 : VolumeAttachmentObj :=
  { name := "va0", attacher := DriverName, sourcePVName := some "pv0",
    nodeName := "node0", attached := true, deletionTimestampSet := false }

/-- C5 witness persistent volume: a CSI volume of this driver. -/
def pv0 : PersistentVolumeObj :=
  { csi := some { driver := DriverName,
                  volumeHandle := "/subscriptions/s/rg/providers/disks/disk0" } }

/-- C5 witness PV lookup: only `pv0` exists. -/
def pvLookup0 (v : String) : Option PersistentVolumeObj :=
  if v = "pv0" then some pv0 else none

/-- C5 witness accumulator: fresh pass over an empty store. -/
def acc0 : SyncAcc :=
  { store := [], synced := [], volumesToSync := [] }

/-! ## Theorems -/

theorem mapGet_mapSet_self (m : StrMap) (k v : String) :
    mapGet (mapSet m k v) k = some v := by
  induction m with
  | nil => simp [mapSet, mapGet]
  | cons p tl ih =>
    by_cases h : p.1 = k
    · simp [mapSet, h, mapGet]
    · simp only [mapSet, if_neg h]
      simp only [mapGet, List.find?] at ih ⊢
      rw [show (decide (p.1 = k)) = false from by simp [h]]
      exact ih

theorem mapGet_mapSet_ne (m : StrMap) (k v k' : String) (h : k' ≠ k) :
    mapGet (mapSet m k v) k' = mapGet m k' := by
  induction m with
  | nil => simp [mapSet, mapGet, List.find?, Ne.symm h]
  | cons p tl ih =>
    by_cases hp : p.1 = k
    · simp only [mapSet, if_pos hp, mapGet, List.find?]
      rw [show (decide (k = k')) = false from by simp [Ne.symm h]]
      rw [show (decide (p.1 = k')) = false from by simp [hp, Ne.symm h]]
    · simp only [mapSet, if_neg hp, mapGet, List.find?] at ih ⊢
      cases hd : decide (p.1 = k')
      · exact ih
      · rfl

/-- `stateString` is injective (the states are distinct string constants),
so the string-level membership test in `updateState` agrees with
state-level membership. -/
theorem containsString_stateString (s : AttachState) (l : List AttachState) :
    containsString (stateString s) (l.map stateString) = l.contains s := by
  induction l with
  | nil => rfl
  | cons hd tl ih =>
    have hiff : (stateString s == stateString hd) = (s == hd) := by
      by_cases h : s = hd
      · subst h; simp
      · have hs : (stateString s == stateString hd) = false := by
          cases hd <;> cases s <;> first | rfl | exact absurd rfl h
        have hs2 : (s == hd) = false := by
          cases hd <;> cases s <;> first | rfl | exact absurd rfl h
        rw [hs, hs2]
    simp only [containsString, List.map_cons, List.contains_cons] at *
    rw [hiff, ih]

/-- `updateState` as a conditional on state-level membership. -/
theorem updateState_eq (a : AzVolumeAttachment) (t : AttachState) :
    updateState a t =
      if t ∈ allowedTargetAttachmentStates a.status.state then
        ({ a with status := { a.status with state := t } }, none)
      else
        (a, some { code := .failedPrecondition,
                   message := formatUpdateStateError "azVolume"
                     (stateString a.status.state) (stateString t)
                     ((allowedTargetAttachmentStates a.status.state).map stateString) }) := by
  simp only [updateState, containsString_stateString]
  by_cases h : t ∈ allowedTargetAttachmentStates a.status.state
  · rw [if_pos (show (allowedTargetAttachmentStates a.status.state).contains t = true from
      List.elem_iff.mpr h), if_pos h]
  · rw [if_neg (show ¬(allowedTargetAttachmentStates a.status.state).contains t = true from
      fun hc => h (List.elem_iff.mp hc)), if_neg h]

/-- C1: `updateState` fails with a `FailedPrecondition` error and leaves
`Status.State` unchanged exactly on the (from, to) pairs outside the
transition table, succeeds with the stored state equal to `to` on the
pairs inside it, and every self-transition is outside the table. -/
theorem updateState_follows_transition_table (a : AzVolumeAttachment) (t : AttachState) :
    ((updateState a t).2 = none ↔ t ∈ allowedTargetAttachmentStates a.status.state) ∧
    ((updateState a t).2 = none → (updateState a t).1.status.state = t) ∧
    (∀ e, (updateState a t).2 = some e →
      e.code = .failedPrecondition ∧ (updateState a t).1 = a) ∧
    a.status.state ∉ allowedTargetAttachmentStates a.status.state := by
  rw [updateState_eq]
  have hself : a.status.state ∉ allowedTargetAttachmentStates a.status.state := by
    cases hs : a.status.state <;> simp [allowedTargetAttachmentStates]
  by_cases h : t ∈ allowedTargetAttachmentStates a.status.state
  · simp only [if_pos h]
    refine ⟨?_, ?_, ?_, hself⟩
    · simp [h]
    · intro _
      first | rfl | trivial
    · intro e he
      simp at he
  · simp only [if_neg h]
    refine ⟨?_, ?_, ?_, hself⟩
    · simp [h]
    · intro hc
      first | exact hc.elim | exact Option.noConfusion hc
    · intro e he
      injection he with h2
      rw [← h2]
      exact ⟨rfl, by first | rfl | trivial⟩

/-- Witness for C1 at concrete inputs: `Pending → Attaching` is in the
table and succeeds; `Pending → Attached` is not and fails in place. -/
theorem updateState_follows_transition_table_witness :
    (updateState rec0 .Attaching).1.status.state = .Attaching ∧
    (updateState rec0 .Attached).1 = rec0 := by
  constructor
  · exact (updateState_follows_transition_table rec0 .Attaching).2.1
      ((updateState_follows_transition_table rec0 .Attaching).1.mpr (by decide))
  · exact ((updateState_follows_transition_table rec0 .Attached).2.2.1
      { code := .failedPrecondition,
        message := formatUpdateStateError "azVolume" "Pending" "Attached"
          ["Attaching", "Detaching"] } (by decide)).2


/-- `initializeMeta` returns its input unchanged when the required
metadata is already present. -/
theorem initializeMeta_of_required (b : AzVolumeAttachment)
    (h : requiredMetaExists b = true) : initializeMeta b = b := by
  simp [initializeMeta, h]

/-- The labels stored by `initializeMeta` when metadata was missing. -/
theorem initializeMeta_labels_of_missing (a : AzVolumeAttachment)
    (hm : requiredMetaExists a = false) :
    mapGet (initializeMeta a).meta.labels RoleLabel =
      some (roleString a.spec.requestedRole) ∧
    mapGet (initializeMeta a).meta.labels VolumeNameLabel =
      some a.spec.underlyingVolume ∧
    mapGet (initializeMeta a).meta.labels NodeNameLabel = some a.spec.nodeName := by
  refine ⟨?_, ?_, ?_⟩
  · simp only [initializeMeta, hm, Bool.false_eq_true, if_false]
    exact mapGet_mapSet_self _ _ _
  · simp only [initializeMeta, hm, Bool.false_eq_true, if_false]
    rw [mapGet_mapSet_ne _ _ _ _ (by decide)]
    exact mapGet_mapSet_self _ _ _
  · simp only [initializeMeta, hm, Bool.false_eq_true, if_false]
    rw [mapGet_mapSet_ne _ _ _ _ (by decide), mapGet_mapSet_ne _ _ _ _ (by decide)]
    exact mapGet_mapSet_self _ _ _

/-- `initializeMeta` always leaves the driver finalizer present. -/
theorem initializeMeta_finalizer (a : AzVolumeAttachment) :
    finalizerExists (initializeMeta a).meta.finalizers AzVolumeAttachmentFinalizer
      = true := by
  by_cases hm : requiredMetaExists a = true
  · rw [initializeMeta_of_required a hm]
    have h4 := hm
    simp only [requiredMetaExists, Bool.and_eq_true] at h4
    exact h4.1.1.1
  · simp only [Bool.not_eq_true] at hm
    simp only [initializeMeta, hm, Bool.false_eq_true, if_false]
    by_cases hf : finalizerExists a.meta.finalizers AzVolumeAttachmentFinalizer = true
    · simp [hf]
    · simp only [Bool.not_eq_true] at hf
      simp only [hf, Bool.false_eq_true, if_false]
      exact List.elem_iff.mpr (List.mem_append_right _ (List.mem_singleton.mpr rfl))

/-- After one `initializeMeta` application the required metadata is
present. -/
theorem requiredMetaExists_initializeMeta (a : AzVolumeAttachment) :
    requiredMetaExists (initializeMeta a) = true := by
  by_cases hm : requiredMetaExists a = true
  · rw [initializeMeta_of_required a hm]
    exact hm
  · simp only [Bool.not_eq_true] at hm
    obtain ⟨h1, h2, h3⟩ := initializeMeta_labels_of_missing a hm
    simp [requiredMetaExists, labelExists, initializeMeta_finalizer a, h1, h2, h3]

/-- `initializeMeta` is idempotent. -/
theorem initializeMeta_idem (a : AzVolumeAttachment) :
    initializeMeta (initializeMeta a) = initializeMeta a :=
  initializeMeta_of_required _ (requiredMetaExists_initializeMeta a)

/-- `initializeMeta` touches only the finalizers and labels of the
metadata block. -/
theorem initializeMeta_preserves (a : AzVolumeAttachment) :
    (initializeMeta a).spec = a.spec ∧ (initializeMeta a).status = a.status ∧
    (initializeMeta a).meta.name = a.meta.name ∧
    (initializeMeta a).meta.annotations = a.meta.annotations ∧
    (initializeMeta a).meta.deletionTimestampSet = a.meta.deletionTimestampSet := by
  unfold initializeMeta
  by_cases h : requiredMetaExists a = true <;> simp [h]

/-- C2 (counterexample): at a record with deletion requested, state
`Detached` (not detach-eligible), a present `Status.Detail` whose role
differs from the requested role, and no operation in flight, `Reconcile`
is a no-op, whereas the claim's flat priority order selects promotion:
the claimed branch structure is false on the code. -/
theorem reconcile_priority_counterexample :
    isOperationInProcess recC2 = false ∧
    deletionRequested recC2.meta = true ∧
    recC2.status.state = .Detached ∧
    recC2.status.detail = some ({ role := .Replica, publishContext := [] } : StatusDetail) ∧
    recC2.spec.requestedRole = .Primary ∧
    reconcileIntent recC2 = .noop ∧
    reconcileIntentClaimed recC2 = .promoteRecord ∧
    reconcileIntent recC2 ≠ reconcileIntentClaimed recC2 := by
  decide

/-- C2 (amended): with no operation in flight, `Reconcile` branches with
the attach and promotion intents gated on the deletion timestamp being
unset: deletion requested and detach-eligible state selects detach,
deletion requested otherwise is a no-op (no fall-through); with deletion
unset, a nil `Status.Detail` in an attach-eligible state selects attach,
nil detail otherwise is a no-op; with deletion unset and detail present,
a role mismatch selects promotion and otherwise nothing happens. -/
theorem reconcile_priority_amended (a : AzVolumeAttachment)
    (h : isOperationInProcess a = false) :
    (deletionRequested a.meta = true → detachEligibleState a.status.state = true →
      reconcileIntent a = .detach) ∧
    (deletionRequested a.meta = true → detachEligibleState a.status.state = false →
      reconcileIntent a = .noop) ∧
    (deletionRequested a.meta = false → a.status.detail = none →
      attachEligibleState a.status.state = true → reconcileIntent a = .attach) ∧
    (deletionRequested a.meta = false → a.status.detail = none →
      attachEligibleState a.status.state = false → reconcileIntent a = .noop) ∧
    (∀ d, deletionRequested a.meta = false → a.status.detail = some d →
      a.spec.requestedRole ≠ d.role → reconcileIntent a = .promoteRecord) ∧
    (∀ d, deletionRequested a.meta = false → a.status.detail = some d →
      a.spec.requestedRole = d.role → reconcileIntent a = .noop) := by
  refine ⟨?_, ?_, ?_, ?_, ?_, ?_⟩
  · intro h1 h2; simp [reconcileIntent, h, h1, h2]
  · intro h1 h2; simp [reconcileIntent, h, h1, h2]
  · intro h1 h2 h3; simp [reconcileIntent, h, h1, h2, h3]
  · intro h1 h2 h3; simp [reconcileIntent, h, h1, h2, h3]
  · intro d h1 h2 h3; simp [reconcileIntent, h, h1, h2, h3]
  · intro d h1 h2 h3; simp [reconcileIntent, h, h1, h2, h3]

/-- Witness for C2 (amended): a fresh pending record with no deletion
marker selects attach. -/
theorem reconcile_priority_amended_witness :
    reconcileIntent rec0 = .attach :=
  (reconcile_priority_amended rec0 (by decide)).2.2.1 (by decide) (by decide) (by decide)

/-- C3 (counterexample): on a record attached as Primary with
`Spec.RequestedRole = Replica`, `promote` leaves both the role label and
`Status.Detail.Role` at Primary — not at the requested role: the claim
fails for a Replica request. -/
theorem promote_requested_role_counterexample :
    recC3.status.detail = some ({ role := .Primary, publishContext := [] } : StatusDetail) ∧
    recC3.spec.requestedRole = .Replica ∧
    recC3.spec.requestedRole ≠ Role.Primary ∧
    (promote recC3).1.status.detail =
      some ({ role := .Primary, publishContext := [] } : StatusDetail) ∧
    mapGet (promote recC3).1.meta.labels RoleLabel = some "Primary" ∧
    (promote recC3).1.status.detail.map StatusDetail.role ≠ some recC3.spec.requestedRole ∧
    mapGet (promote recC3).1.meta.labels RoleLabel ≠
      some (roleString recC3.spec.requestedRole) := by
  decide

/-- C3 (amended): for every record whose `Status.Detail` is non-nil, the
promote operation sets the role label and `Status.Detail.Role` to the
Primary role — the hardcoded `v1alpha1.PrimaryRole` argument, equal to
the requested role exactly when Primary is requested — leaves
`Status.State` unchanged, and invokes no provisioner call. -/
theorem promote_sets_primary_role (a : AzVolumeAttachment) (d : StatusDetail)
    (hd : a.status.detail = some d) :
    mapGet (promote a).1.meta.labels RoleLabel = some (roleString .Primary) ∧
    (promote a).1.status.detail = some ({ d with role := .Primary }) ∧
    (promote a).1.status.state = a.status.state ∧
    (promote a).2 = [] := by
  unfold promote updateRole
  simp only [hd]
  refine ⟨mapGet_mapSet_self _ _ _, ?_, ?_, ?_⟩ <;> first | rfl | trivial

/-- Witness for C3 (amended) at the concrete demotion record. -/
theorem promote_sets_primary_role_witness :
    mapGet (promote recC3).1.meta.labels RoleLabel = some (roleString .Primary) ∧
    (promote recC3).2 = [] :=
  ⟨(promote_sets_primary_role recC3 { role := .Primary, publishContext := [] }
      (by decide)).1,
   (promote_sets_primary_role recC3 { role := .Primary, publishContext := [] }
      (by decide)).2.2.2⟩

/-- C6: `updateError` records the gRPC status code string and the message
of a provisioner error into `Status.Error`; for the dangling-attach
variant the code is instead the dangling-attach code and
`CurrentNode`/`DevicePath` carry the error's fields.  The rest of the
status block is untouched. -/
theorem updateError_records_status_error (a : AzVolumeAttachment)
    (c : GrpcCode) (m cn dp : String) :
    ((updateError a (.grpcStatus c m)).status.error =
      some ({ errorCode := getStringValueForErrorCode c, errorMessage := m,
              currentNode := "", devicePath := "" } : AzError)) ∧
    ((updateError a (.danglingAttach m cn dp)).status.error =
      some ({ errorCode := DanglingAttachErrorCode, errorMessage := m,
              currentNode := cn, devicePath := dp } : AzError)) ∧
    (updateError a (.grpcStatus c m)).status.state = a.status.state ∧
    (updateError a (.danglingAttach m cn dp)).status.state = a.status.state ∧
    (updateError a (.danglingAttach m cn dp)).status.detail = a.status.detail :=
  ⟨rfl, rfl, rfl, rfl, rfl⟩

/-- C7 (counterexample): a record already carrying the finalizer and all
three label keys, with a stale role label, is returned unchanged by
`initializeMeta`: after one application the role label still differs from
`Spec.RequestedRole`. -/
theorem initializeMeta_role_label_counterexample :
    requiredMetaExists recC7 = true ∧
    initializeMeta recC7 = recC7 ∧
    recC7.spec.requestedRole = .Primary ∧
    mapGet (initializeMeta recC7).meta.labels RoleLabel = some "Replica" ∧
    mapGet (initializeMeta recC7).meta.labels RoleLabel ≠
      some (roleString (initializeMeta recC7).spec.requestedRole) := by
  decide

/-- C7 (amended): `initializeMeta` is idempotent; after one application
the record carries the driver finalizer and the node-name, volume-name
and role labels; when the record did not already carry all the required
metadata, the role label equals `Spec.RequestedRole` (a record that
already carried it keeps its prior label values); a second application
returns the record unchanged. -/
theorem initializeMeta_idempotent (a : AzVolumeAttachment) :
    initializeMeta (initializeMeta a) = initializeMeta a ∧
    finalizerExists (initializeMeta a).meta.finalizers AzVolumeAttachmentFinalizer = true ∧
    labelExists (initializeMeta a).meta.labels NodeNameLabel = true ∧
    labelExists (initializeMeta a).meta.labels VolumeNameLabel = true ∧
    labelExists (initializeMeta a).meta.labels RoleLabel = true ∧
    (requiredMetaExists a = false →
      mapGet (initializeMeta a).meta.labels RoleLabel =
        some (roleString a.spec.requestedRole)) := by
  have h4 := requiredMetaExists_initializeMeta a
  simp only [requiredMetaExists, Bool.and_eq_true] at h4
  refine ⟨initializeMeta_idem a, h4.1.1.1, h4.1.1.2, h4.1.2, h4.2, ?_⟩
  intro hc
  exact (initializeMeta_labels_of_missing a hc).1

/-- Witness for C7 (amended) at the fresh record `rec0` (no metadata
yet). -/
theorem initializeMeta_idempotent_witness :
    initializeMeta (initializeMeta rec0) = initializeMeta rec0 ∧
    mapGet (initializeMeta rec0).meta.labels RoleLabel =
      some (roleString rec0.spec.requestedRole) :=
  ⟨(initializeMeta_idempotent rec0).1,
   (initializeMeta_idempotent rec0).2.2.2.2.2 (by decide)⟩



/-- `List.contains` agrees with membership (strings, lawful `BEq`). -/
theorem contains_iff_mem (l : List String) (x : String) :
    l.contains x = true ↔ x ∈ l :=
  List.elem_iff

theorem not_mem_of_contains_false (l : List String) (x : String)
    (h : l.contains x = false) : x ∉ l := by
  intro hm
  have h2 : l.contains x = true := (contains_iff_mem l x).mpr hm
  rw [h] at h2
  exact Bool.noConfusion h2

/-- Elements removed by the skip-filter are no longer contained. -/
theorem contains_filter_ne (l : List String) (x : String) :
    (l.filter (fun n => n ≠ x)).contains x = false := by
  induction l with
  | nil => rfl
  | cons hd tl ih =>
    rw [List.filter_cons]
    by_cases h : hd = x
    · simp only [h, ne_eq, not_true_eq_false, decide_False, Bool.false_eq_true, if_false]
      exact ih
    · simp only [ne_eq, h, not_false_eq_true, decide_True, if_true, List.contains_cons, ih,
        Bool.or_false]
      simp [Ne.symm h]

/-- From every detach-eligible state the transition to `Detaching` is in
the table. -/
theorem detaching_allowed_of_eligible (s : AttachState)
    (h : detachEligibleState s = true) :
    AttachState.Detaching ∈ allowedTargetAttachmentStates s := by
  cases s <;> simp_all [detachEligibleState, allowedTargetAttachmentStates]

/-- C4: with deletion requested in an eligible state and the lock free, a
cloud detach is triggered only when the eligibility disjunction holds —
no "volume-attachment-exists" annotation, or the named low-level
VolumeAttachment is gone or deleting, or the force-detach annotation is
present (the disjunction is exactly the `detachmentRequested`
computation); when it holds, the stored record is `Detaching` and one
unpublish call is issued; when none of these hold, the finalizer is
cleared directly, no unpublish call is made and the state is untouched. -/
theorem triggerDetach_eligibility (vaLookup : String → Option VolumeAttachmentObj)
    (lock : StateLock) (a : AzVolumeAttachment)
    (hstate : detachEligibleState a.status.state = true)
    (hfree : lock.contains a.meta.name = false) :
    (detachmentRequestedCalc vaLookup a = true ↔
      mapGet a.meta.annotations volumeAttachmentExistsAnnKey = none ∨
      (∃ vaName, mapGet a.meta.annotations volumeAttachmentExistsAnnKey = some vaName ∧
        (vaLookup vaName = none ∨
         ∃ va, vaLookup vaName = some va ∧ va.deletionTimestampSet = true)) ∨
      hasAnnKey a.meta volumeDetachRequestAnnKey = true) ∧
    ((∃ a2, (triggerDetach vaLookup lock a).2.1 = .cloudDetach a2) →
      detachmentRequestedCalc vaLookup a = true) ∧
    (detachmentRequestedCalc vaLookup a = true →
      ∃ a2, triggerDetach vaLookup lock a =
        (lockDelete (a.meta.name :: lock) a.meta.name, .cloudDetach a2,
         [.unpublish a.spec.volumeID a.spec.nodeName]) ∧
        a2.status.state = .Detaching) ∧
    (detachmentRequestedCalc vaLookup a = false →
      triggerDetach vaLookup lock a = (lock, .clearFinalizer (deleteFinalizer a), []) ∧
      (deleteFinalizer a).status.state = a.status.state ∧
      finalizerExists (deleteFinalizer a).meta.finalizers AzVolumeAttachmentFinalizer
        = false) := by
  have hmem : AttachState.Detaching ∈ allowedTargetAttachmentStates a.status.state :=
    detaching_allowed_of_eligible _ hstate
  have hiff : detachmentRequestedCalc vaLookup a = true ↔
      mapGet a.meta.annotations volumeAttachmentExistsAnnKey = none ∨
      (∃ vaName, mapGet a.meta.annotations volumeAttachmentExistsAnnKey = some vaName ∧
        (vaLookup vaName = none ∨
         ∃ va, vaLookup vaName = some va ∧ va.deletionTimestampSet = true)) ∨
      hasAnnKey a.meta volumeDetachRequestAnnKey = true := by
    unfold detachmentRequestedCalc
    cases hk : mapGet a.meta.annotations volumeAttachmentExistsAnnKey with
    | none => simp [hk]
    | some vaName =>
      cases hv : vaLookup vaName with
      | none => simp [hk, hv]
      | some va =>
        cases hts : va.deletionTimestampSet <;> simp [hk, hv, hts]
  by_cases hreq : detachmentRequestedCalc vaLookup a = true
  · have hpath : triggerDetach vaLookup lock a =
        (lockDelete (a.meta.name :: lock) a.meta.name,
         .cloudDetach ({ a with status := { a.status with state := .Detaching } }),
         [.unpublish a.spec.volumeID a.spec.nodeName]) := by
      unfold triggerDetach
      simp only [hreq, if_true, lockLoadOrStore, hfree, Bool.false_eq_true, if_false]
      rw [updateState_eq, if_pos hmem]
    refine ⟨hiff, fun _ => hreq, fun _ => ⟨_, hpath, rfl⟩, fun hc => ?_⟩
    rw [hc] at hreq
    exact absurd hreq Bool.false_ne_true
  · simp only [Bool.not_eq_true] at hreq
    have hpath : triggerDetach vaLookup lock a =
        (lock, .clearFinalizer (deleteFinalizer a), []) := by
      unfold triggerDetach
      simp only [hreq, Bool.false_eq_true, if_false]
    refine ⟨hiff, ?_, ?_, ?_⟩
    · intro ⟨a2, h2⟩
      rw [hpath] at h2
      exact absurd h2 (by simp)
    · intro hc
      rw [hreq] at hc
      exact absurd hc Bool.false_ne_true
    · intro _
      exact ⟨hpath, rfl, contains_filter_ne _ _⟩

/-- Witness for C4 at a concrete eligible record with no annotations. -/
theorem triggerDetach_eligibility_witness :
    ∃ a2, triggerDetach (fun _ => none) [] recC4 =
      (lockDelete [recC4.meta.name] recC4.meta.name, .cloudDetach a2,
       [.unpublish recC4.spec.volumeID recC4.spec.nodeName]) ∧
      a2.status.state = .Detaching :=
  (triggerDetach_eligibility (fun _ => none) [] recC4 (by decide) (by decide)).2.2.1
    (by decide)

/-- C9: the per-record lock gives mutual exclusion: with the lock free,
of two acquisitions of the same name run in either order (LoadOrStore is
an atomic check-and-set, so any concurrent execution equals one of the
two sequential orders) the first obtains ownership and the second does
not; a trigger that finds the lock held returns the retry-later requeue
result with no stored record and no cloud call, leaving the map
unchanged; and a trigger that acquires has released the lock by the time
it returns. -/
theorem stateLock_mutual_exclusion (lock : StateLock) (a : AzVolumeAttachment)
    (vaLookup : String → Option VolumeAttachmentObj)
    (hfree : lock.contains a.meta.name = false) :
    ((lockLoadOrStore lock a.meta.name).1 = false ∧
     (lockLoadOrStore (lockLoadOrStore lock a.meta.name).2 a.meta.name).1 = true) ∧
    (∀ l2 : StateLock, l2.contains a.meta.name = true →
      triggerAttach l2 a = (l2, .requeue, []) ∧
      (detachmentRequestedCalc vaLookup a = true →
        triggerDetach vaLookup l2 a = (l2, .requeue, []))) ∧
    (triggerAttach lock a).1.contains a.meta.name = false ∧
    (triggerDetach vaLookup lock a).1.contains a.meta.name = false := by
  have hnm : a.meta.name ∉ lock := not_mem_of_contains_false lock a.meta.name hfree
  refine ⟨⟨?_, ?_⟩, ?_, ?_, ?_⟩
  · simp [lockLoadOrStore, hnm]
  · simp [lockLoadOrStore, hnm]
  · intro l2 h2
    have hm2 : a.meta.name ∈ l2 := (contains_iff_mem l2 a.meta.name).mp h2
    constructor
    · unfold triggerAttach
      simp [lockLoadOrStore, hm2]
    · intro hreq
      unfold triggerDetach
      simp [hreq, lockLoadOrStore, hm2]
  · unfold triggerAttach
    simp only [lockLoadOrStore, hfree, Bool.false_eq_true, if_false]
    rcases hupd : updateState (initializeMeta a) .Attaching with ⟨a2, e2⟩
    cases e2 <;> simp [hupd, lockDelete, contains_filter_ne]
  · unfold triggerDetach
    by_cases hreq : detachmentRequestedCalc vaLookup a = true
    · simp only [hreq, if_true, lockLoadOrStore, hfree, Bool.false_eq_true, if_false]
      rcases hupd : updateState a .Detaching with ⟨a2, e2⟩
      cases e2 <;> simp [hupd, lockDelete, contains_filter_ne]
    · simp only [Bool.not_eq_true] at hreq
      simp [hreq, hnm]

/-- Witness for C9: exactly-one acquisition on the empty map, and the
requeue result against a held lock. -/
theorem stateLock_mutual_exclusion_witness :
    (lockLoadOrStore [] rec0.meta.name).1 = false ∧
    (lockLoadOrStore (lockLoadOrStore [] rec0.meta.name).2 rec0.meta.name).1 = true ∧
    triggerAttach [rec0.meta.name] rec0 = ([rec0.meta.name], .requeue, []) := by
  have h := stateLock_mutual_exclusion [] rec0 (fun _ => none) (by decide)
  exact ⟨h.1.1, h.1.2, (h.2.1 [rec0.meta.name] (by decide)).1⟩



/-- C5: one pass of the recovery loop over a binding whose attacher is
this driver and whose persistent volume resolves to a CSI volume of this
driver: `synthesizedRecord` carries `Spec.RequestedRole = Primary`, the
state derived from the attach status, a Primary-role `Status.Detail`
exactly when that state is `Attached`, and the driver finalizer; when no
record with the derived deterministic name exists the pass appends
exactly that record, and when one exists the pass only repairs it with
`initializeMeta` — spec, status, name untouched, and idempotently. -/
theorem syncAll_synthesizes_or_repairs
    (pvLookup : String → Option PersistentVolumeObj) (acc : SyncAcc)
    (va : VolumeAttachmentObj) (volumeName : String) (pv : PersistentVolumeObj)
    (csi : CSISpec) (diskName : String)
    (hsynced : acc.synced.contains va.name = false)
    (hatt : va.attacher = DriverName)
    (hsrc : va.sourcePVName = some volumeName)
    (hpv : pvLookup volumeName = some pv)
    (hcsi : pv.csi = some csi)
    (hdrv : csi.driver = DriverName)
    (hdisk : getDiskNameFromAzureManagedDiskURI csi.volumeHandle = some diskName) :
    (∀ azName vn vh nn att,
      (synthesizedRecord azName vn vh nn att).spec.requestedRole = Role.Primary ∧
      (synthesizedRecord azName vn vh nn att).status.state =
        getAzVolumeAttachmentState att ∧
      ((synthesizedRecord azName vn vh nn att).status.detail =
        if getAzVolumeAttachmentState att = AttachState.Attached
        then some ({ role := .Primary, publishContext := [] } : StatusDetail)
        else none) ∧
      (synthesizedRecord azName vn vh nn att).meta.finalizers =
        [AzVolumeAttachmentFinalizer]) ∧
    (storeGet acc.store (getAzVolumeAttachmentName diskName va.nodeName) = none →
      ∃ acc2, syncOne pvLookup acc va = some acc2 ∧
        acc2.store = acc.store ++
          [synthesizedRecord (getAzVolumeAttachmentName diskName va.nodeName)
            volumeName csi.volumeHandle va.nodeName va.attached]) ∧
    (∀ existing,
      storeGet acc.store (getAzVolumeAttachmentName diskName va.nodeName)
        = some existing →
      ∃ acc2, syncOne pvLookup acc va = some acc2 ∧
        acc2.store = storeUpdate acc.store (initializeMeta existing) ∧
        (initializeMeta existing).spec = existing.spec ∧
        (initializeMeta existing).status = existing.status ∧
        (initializeMeta existing).meta.name = existing.meta.name ∧
        initializeMeta (initializeMeta existing) = initializeMeta existing) := by
  have hrun : syncOne pvLookup acc va =
      (match storeGet acc.store (getAzVolumeAttachmentName diskName va.nodeName) with
       | some existing =>
         some { store := storeUpdate acc.store (initializeMeta existing),
                synced := va.name :: acc.synced,
                volumesToSync :=
                  if acc.volumesToSync.contains csi.volumeHandle
                  then acc.volumesToSync else csi.volumeHandle :: acc.volumesToSync }
       | none =>
         some { store := acc.store ++
                  [synthesizedRecord (getAzVolumeAttachmentName diskName va.nodeName)
                    volumeName csi.volumeHandle va.nodeName va.attached],
                synced := va.name :: acc.synced,
                volumesToSync :=
                  if acc.volumesToSync.contains csi.volumeHandle
                  then acc.volumesToSync else csi.volumeHandle :: acc.volumesToSync }) := by
    unfold syncOne
    rw [hsynced]
    rw [if_neg Bool.false_ne_true, if_pos hatt, hsrc]
    dsimp only
    rw [hpv]
    dsimp only
    rw [hcsi]
    dsimp only
    rw [if_pos hdrv, hdisk]
  refine ⟨?_, ?_, ?_⟩
  · intro azName vn vh nn att
    refine ⟨rfl, rfl, ?_, rfl⟩
    cases att <;> rfl
  · intro hnone
    rw [hnone] at hrun
    exact ⟨_, hrun, rfl⟩
  · intro existing hsome
    rw [hsome] at hrun
    exact ⟨_, hrun, rfl, (initializeMeta_preserves existing).1,
      (initializeMeta_preserves existing).2.1, (initializeMeta_preserves existing).2.2.1,
      initializeMeta_idem existing⟩

/-- Witness for C5: a fresh pass over an empty store and one attached
binding creates the Attached-with-Primary-detail record. -/
theorem syncAll_synthesizes_or_repairs_witness :
    ∃ acc2, syncOne pvLookup0 acc0 va0 = some acc2 ∧
      acc2.store = acc0.store ++
        [synthesizedRecord (getAzVolumeAttachmentName "disk0" va0.nodeName)
          "pv0" "/subscriptions/s/rg/providers/disks/disk0" va0.nodeName va0.attached] :=
  (syncAll_synthesizes_or_repairs pvLookup0 acc0 va0 "pv0" pv0
    { driver := DriverName, volumeHandle := "/subscriptions/s/rg/providers/disks/disk0" }
    "disk0" (by decide) (by decide) (by decide) (by decide) (by decide) (by decide)
    (by decide)).2.1 (by decide)



/-- A `foldlM` over `Except` whose step function fails at some member of
the list fails as a whole, from every starting accumulator. -/
theorem foldlM_isPanic {α β : Type} (f : β → α → Except String β) (x : α)
    (hf : ∀ acc, isPanic (f acc x) = true) :
    ∀ (l : List α), x ∈ l → ∀ init, isPanic (l.foldlM f init) = true := by
  intro l
  induction l with
  | nil => intro hx; cases hx
  | cons hd tl ih =>
    intro hx init
    rcases List.mem_cons.mp hx with heq | hmem
    · subst heq
      rcases hstep : f init x with e | acc2
      · simp only [List.foldlM_cons, hstep]
        rfl
      · have hpanic := hf init
        rw [hstep] at hpanic
        exact absurd hpanic (by simp [isPanic])
    · rcases hstep : f init hd with e | acc2
      · simp only [List.foldlM_cons, hstep]
        rfl
      · simp only [List.foldlM_cons, hstep]
        exact ih hmem acc2

/-- C10: the listing operations read `Status.Detail.Role` of every
matching record unconditionally: whenever the listed attachments contain
a matching record whose `Status.Detail` is nil, the listing — by node, by
pod, by zone, or unfiltered — panics on the nil dereference and returns
no result, instead of reporting the record with an empty role. -/
theorem listing_panics_on_nil_detail
    (pods : List PodObj) (nodes : List NodeObj) (atts : List AzVolumeAttachment)
    (a : AzVolumeAttachment) (ha : a ∈ atts) (hdetail : a.status.detail = none)
    (podName nameSpace : String) (pod : PodObj) (zoneName : String) :
    isPanic (GetAzVolumeAttachementsByNode atts a.spec.nodeName) = true ∧
    (pods.find? (fun p => p.name = podName &&
        p.nameSpace = (if nameSpace = "" then "default" else nameSpace)) = some pod →
      pod.pvcClaimNames.contains ((mapGet a.spec.volumeContext PvcNameKey).getD "")
        = true →
      isPanic (GetAzVolumeAttachementsByPod pods atts podName nameSpace) = true) ∧
    ((mapGet (zoneNodeSet nodes zoneName) a.spec.nodeName).isSome = true →
      isPanic (GetAzVolumeAttachementsByZone nodes atts zoneName) = true) ∧
    ((pvcClaimNamePods
        (pods.filter (fun p => p.nameSpace =
          (if nameSpace = "" then "default" else nameSpace)))
        ((mapGet a.spec.volumeContext PvcNameKey).getD "")).isEmpty = false →
      isPanic (GetAllAzVolumeAttachements pods nodes atts nameSpace) = true) := by
  refine ⟨?_, ?_, ?_, ?_⟩
  · unfold GetAzVolumeAttachementsByNode
    refine foldlM_isPanic _ a (fun acc => ?_) atts ha []
    simp [hdetail, isPanic]
  · intro hfind hclaim
    unfold GetAzVolumeAttachementsByPod
    dsimp only
    rw [hfind]
    refine foldlM_isPanic _ a (fun acc => ?_) atts ha []
    have hmemc : (mapGet a.spec.volumeContext PvcNameKey).getD "" ∈ pod.pvcClaimNames :=
      (contains_iff_mem _ _).mp hclaim
    simp [hmemc, hdetail, isPanic]
  · intro hz
    rcases Option.isSome_iff_exists.mp hz with ⟨z, hzeq⟩
    unfold GetAzVolumeAttachementsByZone
    refine foldlM_isPanic _ a (fun acc => ?_) atts ha []
    simp [hzeq, hdetail, isPanic]
  · intro hne
    unfold GetAllAzVolumeAttachements
    refine foldlM_isPanic _ a (fun acc => ?_) atts ha []
    rcases hnode : nodes.find? (fun n => n.name = a.spec.nodeName) with _ | node
    · simp [hnode, isPanic]
    · simp [hnode, hne, hdetail, isPanic]

/-- Witness for C10 at a one-record cluster whose record matches each
filter and carries no `Status.Detail`. -/
theorem listing_panics_on_nil_detail_witness :
    isPanic (GetAzVolumeAttachementsByNode [recC10] recC10.spec.nodeName) = true ∧
    isPanic (GetAzVolumeAttachementsByPod cluster0.pods [recC10] "pod1" "") = true ∧
    isPanic (GetAzVolumeAttachementsByZone [nodeC10] [recC10] "z1") = true ∧
    isPanic (GetAllAzVolumeAttachements cluster0.pods [nodeC10] [recC10] "") = true := by
  have h := listing_panics_on_nil_detail cluster0.pods [nodeC10] [recC10] recC10
    (by simp) (by decide) "pod1" ""
    { name := "pod1", nameSpace := "default", pvcClaimNames := ["claim1"] } "z1"
  exact ⟨h.1, h.2.1 (by rfl) (by decide), h.2.2.1 (by decide), h.2.2.2 (by decide)⟩

/-- C8: when more than one of the pod/node/zone filter flags is set (the
namespace flag not counting as a filter), the command prints only the
usage message and performs no query — the outcome is the same for every
cluster; and whenever the executed branch's query yields zero records the
command prints the no-results message and does not error. -/
theorem azva_usage_and_no_results (cluster : Cluster) (flags : AzvaFlags) :
    (2 ≤ [flags.pod, flags.node, flags.zone].countP Option.isSome →
      azvaRun cluster flags = .ok [.usageMessage]) ∧
    (azvaNumFlag flags = 0 →
      GetAllAzVolumeAttachements cluster.pods cluster.nodes cluster.azVolumeAttachments
        (flags.nameSpace.getD "") = .ok [] →
      azvaRun cluster flags = .ok [.noResults]) ∧
    (∀ p, azvaNumFlag flags = 1 → flags.pod.getD "" = p → p ≠ "" →
      GetAzVolumeAttachementsByPod cluster.pods cluster.azVolumeAttachments p
        (flags.nameSpace.getD "") = .ok [] →
      azvaRun cluster flags = .ok [.noResults]) ∧
    (∀ n, azvaNumFlag flags = 1 → flags.pod.getD "" = "" → flags.node.getD "" = n →
      n ≠ "" →
      GetAzVolumeAttachementsByNode cluster.azVolumeAttachments n = .ok [] →
      azvaRun cluster flags = .ok [.noResults]) ∧
    (∀ z, azvaNumFlag flags = 1 → flags.pod.getD "" = "" → flags.node.getD "" = "" →
      flags.zone.getD "" = z → z ≠ "" →
      GetAzVolumeAttachementsByZone cluster.nodes cluster.azVolumeAttachments z
        = .ok [] →
      azvaRun cluster flags = .ok [.noResults]) := by
  refine ⟨?_, ?_, ?_, ?_, ?_⟩
  · intro hcount
    have hge : 1 < azvaNumFlag flags := by
      obtain ⟨p, n, z, ns⟩ := flags
      unfold azvaNumFlag
      rcases ns with _ | nsv
      · simp only [List.countP_cons, List.countP_nil] at hcount ⊢
        simp only [Option.getD_none]
        simp_all
        omega
      · by_cases hv : nsv = ""
        · subst hv
          simp only [List.countP_cons, List.countP_nil] at hcount ⊢
          simp_all
          omega
        · simp only [List.countP_cons, List.countP_nil] at hcount ⊢
          simp_all
          omega
    simp [azvaRun, hge]
  · intro hnum hq
    simp [azvaRun, hnum, hq]
  · intro p hnum hp hpne hq
    simp [azvaRun, hnum, hp, hpne, hq]
  · intro n hnum hp hn hnne hq
    simp [azvaRun, hnum, hp, hn, hnne, hq]
  · intro z hnum hp hn hz hzne hq
    simp [azvaRun, hnum, hp, hn, hz, hzne, hq]

/-- Witness for C8: a single pod filter over a cluster with no
attachments yields the no-results message. -/
theorem azva_usage_and_no_results_witness :
    azvaRun cluster0
      { pod := some "pod1", node := none, zone := none, nameSpace := none }
      = .ok [.noResults] :=
  (azva_usage_and_no_results cluster0
    { pod := some "pod1", node := none, zone := none, nameSpace := none }).2.2.1
    "pod1" (by rfl) (by rfl) (by decide) (by rfl)


end AzDisk
